import Mathlib

/-!
# KeroTrack — verification of the Tank State Estimation & Consumption
# Forecasting Engine

Shallow embedding of the analytic core of the KeroTrack repository
(`src/oil_recalc.py`, `src/notifier.py`, `src/oil_analysis.py`) over ℚ,
with theorems settling the specification claims about the Physical
Normalizer, Event Classifier, Consumption Estimator, Period Usage
Aggregator and Projection Engine.

Python floats are modelled as exact rationals; sensor readings, tank
constants and thresholds are rational parameters.
-/

namespace KeroTrack

/-! ## Configuration constants (`config.yaml`, loaded at module scope by
`oil_recalc.py` / `oil_anlysis.py`) -/

/-- Tank/thermal constants read from the configuration provider by
`oil_recalc.py` (`TANK_CAPACITY`, `LENGTH`, `WIDTH`, `HEIGHT`,
`REFERENCE_TEMP`, `THERMAL_EXPANSION_COEFF`, `OIL_DENSITY_AT_15C`). -/
structure TankConfig where
  capacity : ℚ
  length : ℚ
  width : ℚ
  height : ℚ
  refTemp : ℚ
  expansionCoeff : ℚ
  oilDensity15 : ℚ

/-- Modelled from the spec: the repository's configuration file
(`config.yaml`, the Configuration Provider of spec section 6) is not under
`src/`. The tank capacity 1225 L is taken from the spec's end-to-end
scenario (section 8); the remaining constants are physically plausible
values for a domestic kerosene tank consistent with the spec's description
(reference temperature 15 °C, kerosene thermal-expansion coefficient
0.0007 per °C, density 820 kg/m³, tank 150×65×130 cm). -/
def KTConfig : TankConfig :=
  { capacity := 1225
    length := 150
    width := 65
    height := 130
    refTemp := 15
    expansionCoeff := 7/10000
    oilDensity15 := 820 }

/-! ## `src/oil_recalc.py` — Physical Normalizer and Event Classifier -/

/-- `oil_recalc.calculate_compensated_volume` (lines 134–138):
`oil_height = HEIGHT - air_gap_cm`;
`raw_volume = (oil_height / HEIGHT) * TANK_CAPACITY`;
`compensated_volume = raw_volume / (1 + THERMAL_EXPANSION_COEFF *
(temperature - REFERENCE_TEMP))`; returns
`min(compensated_volume, TANK_CAPACITY)`. -/
def calculate_compensated_volume (cfg : TankConfig) (air_gap_cm temperature : ℚ) : ℚ :=
  let oil_height := cfg.height - air_gap_cm
  let raw_volume := (oil_height / cfg.height) * cfg.capacity
  let compensated_volume := raw_volume / (1 + cfg.expansionCoeff * (temperature - cfg.refTemp))
  min compensated_volume cfg.capacity

/-- The volume computed by the ingestion pipeline `oil_recalc.process`
(line 264): `current_litres = calculate_compensated_volume(current_air_gap,
current_temp)`. -/
def process_current_litres (cfg : TankConfig) (air_gap_cm temperature : ℚ) : ℚ :=
  calculate_compensated_volume cfg air_gap_cm temperature

/-- `oil_recalc.density_correction` (lines 130–132):
`OIL_DENSITY_AT_15C / (1 + THERMAL_EXPANSION_COEFF * (temp - REFERENCE_TEMP))`. -/
def density_correction (cfg : TankConfig) (temp : ℚ) : ℚ :=
  cfg.oilDensity15 / (1 + cfg.expansionCoeff * (temp - cfg.refTemp))

/-- Python's `round(x, 1)`, as rounding to one decimal place. Python uses
round-half-to-even on floats; this model rounds halves up, which agrees with
it except at exact ties, none of which occur in the facts proved here. -/
def roundTo1 (x : ℚ) : ℚ := (round (x * 10) : ℚ) / 10

/-- `oil_recalc.corrected_litres` (lines 116–128): air gaps of at most 1 cm
return `TANK_CAPACITY`; otherwise the geometric volume of the oil column is
converted to mass at the current temperature and back to volume at the
reference temperature, in litres rounded to one decimal. -/
def corrected_litres (cfg : TankConfig) (air_gap oil_temp : ℚ) : ℚ :=
  if air_gap ≤ 1 then cfg.capacity
  else
    let oil_depth := cfg.height - air_gap
    let oil_volume := (cfg.length / 100) * (cfg.width / 100) * (oil_depth / 100)
    let mass := oil_volume * density_correction cfg oil_temp
    let volume_at_ref_temp := mass / cfg.oilDensity15
    roundTo1 (volume_at_ref_temp * 1000)

/-- `oil_recalc.detect_refill` (lines 80–86). `previous_litres` and
`previous_air_gap` are `None` for the very first reading; a refill is
flagged when the volume increase reaches `refill_threshold` and the air
gap decreased by strictly more than 5 cm. -/
def detect_refill (refill_threshold : ℚ) (current_litres : ℚ)
    (previous_litres : Option ℚ) (current_air_gap : ℚ)
    (previous_air_gap : Option ℚ) : String :=
  match previous_litres, previous_air_gap with
  | some pl, some pg =>
    let volume_increase := current_litres - pl
    let air_gap_decrease := pg - current_air_gap
    if refill_threshold ≤ volume_increase ∧ 5 < air_gap_decrease then "y" else "n"
  | _, _ => "n"

/-- Loop body of `oil_recalc.calculate_bars` (lines 361–366): scan the
threshold list with its index, returning `max(1, i)` at the first
threshold the percentage does not exceed. -/
def barsAux (percentage : ℚ) : List ℚ → ℕ → ℕ
  | [], _ => 10
  | t :: ts, i => if percentage ≤ t then max 1 i else barsAux percentage ts (i + 1)

/-- `oil_recalc.calculate_bars` (lines 361–366) with its hardcoded
threshold list `[0, 15, 25, 35, 45, 55, 65, 75, 85, 95]`. -/
def calculate_bars (percentage : ℚ) : ℕ :=
  barsAux percentage [0, 15, 25, 35, 45, 55, 65, 75, 85, 95] 0

/-! ## Claim theorems about `oil_recalc.py` (C1, C5, C7, C8, C10) -/

lemma barsAux_bounds (percentage : ℚ) :
    ∀ (L : List ℚ) (i : ℕ), i + L.length ≤ 10 →
      1 ≤ barsAux percentage L i ∧ barsAux percentage L i ≤ 10 := by
  intro L
  induction L with
  | nil =>
    intro i _
    exact ⟨by norm_num [barsAux], by norm_num [barsAux]⟩
  | cons t ts ih =>
    intro i hlen
    by_cases hp : percentage ≤ t
    · refine ⟨?_, ?_⟩ <;> simp only [barsAux, if_pos hp]
      · exact le_max_left 1 i
      · have hi : i ≤ 10 := by simp at hlen; omega
        exact max_le (by norm_num) hi
    · simp only [barsAux, if_neg hp]
      exact ih (i + 1) (by simp at hlen ⊢; omega)

/-- C10: for every rational percentage input, including negative values,
zero, and values above 100, `calculate_bars` returns an integer in the
range 1 to 10 inclusive. -/
theorem C10_calculate_bars_range (percentage : ℚ) :
    1 ≤ calculate_bars percentage ∧ calculate_bars percentage ≤ 10 := by
  unfold calculate_bars
  exact barsAux_bounds percentage _ 0 (by norm_num)

/-- C5: `detect_refill` labels a transition `"y"` iff the volume increase
is at least the threshold and the air gap decreased by more than 5 cm; a
+150 L jump with a 10 cm air-gap drop (threshold 100) is `"y"`, the same
jump with a 2 cm drop is `"n"`, and a null previous reading is `"n"`. -/
theorem C5_detect_refill_characterisation :
    (∀ thr c p g q : ℚ,
      detect_refill thr c (some p) g (some q) = "y" ↔ (thr ≤ c - p ∧ 5 < q - g)) ∧
    (∀ thr c g : ℚ, ∀ pg : Option ℚ, detect_refill thr c none g pg = "n") ∧
    detect_refill 100 1150 (some 1000) 40 (some 50) = "y" ∧
    detect_refill 100 1150 (some 1000) 48 (some 50) = "n" := by
  refine ⟨fun thr c p g q => ?_, fun thr c g pg => ?_, by norm_num [detect_refill],
    by norm_num [detect_refill]⟩
  · have hdef : detect_refill thr c (some p) g (some q) =
        if thr ≤ c - p ∧ 5 < q - g then "y" else "n" := rfl
    rw [hdef]
    split_ifs with h
    · exact ⟨fun _ => h, fun _ => rfl⟩
    · exact ⟨fun hc => absurd hc (by decide), fun hcond => absurd hcond h⟩
  · cases pg <;> rfl

/-- C1 counterexample: the Physical Normalizer is not clamped below at 0.
With the configured tank (height 130 cm), an air gap of 260 cm — exceeding
the tank height — yields a strictly negative compensated volume at the
reference temperature, so the claimed `[0, tank_capacity]` interval is
violated. -/
theorem C1_cex_negative_volume :
    calculate_compensated_volume KTConfig 260 15 < 0 := by
  norm_num [calculate_compensated_volume, KTConfig, min_def]

/-- C1 (amended): `calculate_compensated_volume` is clamped above at
`tank_capacity` by its final `min`, but has no lower clamp; the result lies
in `[0, tank_capacity]` provided the air gap does not exceed the tank
height and the thermal correction factor is positive (for a positive tank
height and non-negative capacity). -/
theorem C1_compensated_volume_bounds (cfg : TankConfig) (air_gap_cm temperature : ℚ)
    (hh : 0 < cfg.height) (hcap : 0 ≤ cfg.capacity)
    (hg : air_gap_cm ≤ cfg.height)
    (hfac : 0 < 1 + cfg.expansionCoeff * (temperature - cfg.refTemp)) :
    0 ≤ calculate_compensated_volume cfg air_gap_cm temperature ∧
      calculate_compensated_volume cfg air_gap_cm temperature ≤ cfg.capacity := by
  simp only [calculate_compensated_volume]
  constructor
  · apply le_min _ hcap
    apply div_nonneg _ (le_of_lt hfac)
    exact mul_nonneg (div_nonneg (by linarith) (le_of_lt hh)) hcap
  · exact min_le_right _ _

/-- C1 witness: within the physical range (air gap 30 cm, 20 °C) the
normalized volume of the configured tank lies in `[0, 1225]`. -/
theorem C1_witness :
    0 ≤ calculate_compensated_volume KTConfig 30 20 ∧
      calculate_compensated_volume KTConfig 30 20 ≤ KTConfig.capacity :=
  C1_compensated_volume_bounds KTConfig 30 20 (by norm_num [KTConfig])
    (by norm_num [KTConfig]) (by norm_num [KTConfig]) (by norm_num [KTConfig])

/-- C7 counterexample: monotonicity in the air gap does not hold for every
fixed temperature. At the (unphysical) numeric temperature −1500 °C the
thermal factor `1 + 0.0007·(T − 15)` is negative, and the configured tank
gives a strictly larger volume for the larger air gap 120 cm than for
100 cm, violating non-increase. -/
theorem C7_cex_not_antitone :
    (100 : ℚ) ≤ 120 ∧
      calculate_compensated_volume KTConfig 100 (-1500) <
        calculate_compensated_volume KTConfig 120 (-1500) := by
  constructor
  · norm_num
  · norm_num [calculate_compensated_volume, KTConfig, min_def]

/-- C7 (amended): for every fixed temperature whose thermal correction
factor `1 + expansion_coeff·(T − reference_temp)` is positive — which covers
every physically attainable temperature — the Physical Normalizer's output
is monotonically non-increasing in `air_gap_cm` (positive tank height,
non-negative capacity). -/
theorem C7_compensated_volume_antitone (cfg : TankConfig) (temperature g1 g2 : ℚ)
    (hh : 0 < cfg.height) (hcap : 0 ≤ cfg.capacity)
    (hfac : 0 < 1 + cfg.expansionCoeff * (temperature - cfg.refTemp))
    (hg : g1 ≤ g2) :
    calculate_compensated_volume cfg g2 temperature ≤
      calculate_compensated_volume cfg g1 temperature := by
  simp only [calculate_compensated_volume]
  apply min_le_min _ (le_refl cfg.capacity)
  gcongr

/-- C7 witness: at 20 °C the configured tank's normalized volume at air gap
60 cm is at most that at 50 cm. -/
theorem C7_witness :
    calculate_compensated_volume KTConfig 60 20 ≤
      calculate_compensated_volume KTConfig 50 20 :=
  C7_compensated_volume_antitone KTConfig 20 50 60 (by norm_num [KTConfig])
    (by norm_num [KTConfig]) (by norm_num [KTConfig]) (by norm_num)

/-- C8 counterexample: the normalizer actually used by the ingestion
pipeline (`process` calls `calculate_compensated_volume`, not
`corrected_litres`) does not treat `air_gap_cm ≤ 1` as a full tank: at
air gap 1 cm and the reference temperature it returns
`(129/130)·1225 ≈ 1215.6 L`, not the 1225 L capacity. -/
theorem C8_cex_pipeline_not_full :
    process_current_litres KTConfig 1 15 ≠ KTConfig.capacity := by
  norm_num [process_current_litres, calculate_compensated_volume, KTConfig, min_def]

/-- C8 (amended): the `corrected_litres` normalizer — not the one the
ingestion pipeline calls — treats an air gap of at most 1 cm as a full
tank, returning exactly `tank_capacity` regardless of temperature. -/
theorem C8_corrected_litres_full_tank (cfg : TankConfig) (air_gap oil_temp : ℚ)
    (h : air_gap ≤ 1) :
    corrected_litres cfg air_gap oil_temp = cfg.capacity := by
  unfold corrected_litres
  rw [if_pos h]

/-- C8 witness: `corrected_litres` at air gap 1 cm and 25 °C returns the
configured capacity. -/
theorem C8_witness : corrected_litres KTConfig 1 25 = KTConfig.capacity :=
  C8_corrected_litres_full_tank KTConfig 1 25 (by norm_num)

/-! ## `src/notifier.py` — Period Usage Aggregator -/

/-- A stored reading row as fetched by `notifier.fetch_readings_between`:
`litres_remaining`, the persisted `refill_detected` flag (`"y"`/`"n"`),
and the nullable `current_ppl` unit price. -/
structure NReading where
  litres_remaining : ℚ
  refill_detected : String
  current_ppl : Option ℚ
deriving DecidableEq

/-- The consecutive pairs `(readings[i-1], readings[i])` visited by the
`for i in range(1, len(readings))` loops of the source. -/
def chainPairs {α : Type} : List α → List (α × α)
  | a :: b :: rest => (a, b) :: chainPairs (b :: rest)
  | _ => []

/-- The refill test of the loop in `notifier.calculate_refill_aware_usage`
(line 106): `curr["refill_detected"] == "y"` or
`delta >= refill_threshold` with `delta = curr - prev`. -/
def isRefillPair (refill_threshold : ℚ) (prev curr : NReading) : Bool :=
  (curr.refill_detected == "y") ||
    decide (refill_threshold ≤ curr.litres_remaining - prev.litres_remaining)

/-- One pair's contribution to `total_decrease` in
`notifier.calculate_refill_aware_usage` (lines 106–113): refill pairs
contribute nothing (`continue`); otherwise the decrease
`prev - curr` is added when strictly positive. -/
def pairUsage (refill_threshold : ℚ) (pc : NReading × NReading) : ℚ :=
  if isRefillPair refill_threshold pc.1 pc.2 then 0
  else if 0 < pc.1.litres_remaining - pc.2.litres_remaining then
    pc.1.litres_remaining - pc.2.litres_remaining
  else 0

/-- `total_decrease` accumulated by the loop of
`notifier.calculate_refill_aware_usage`. -/
def totalDecrease (refill_threshold : ℚ) (readings : List NReading) : ℚ :=
  ((chainPairs readings).map (pairUsage refill_threshold)).sum

/-- `had_refill` accumulated by the loop of
`notifier.calculate_refill_aware_usage`. -/
def hadRefill (refill_threshold : ℚ) (readings : List NReading) : Bool :=
  (chainPairs readings).any fun pc => isRefillPair refill_threshold pc.1 pc.2

/-- `refill_volume` accumulated by the loop of
`notifier.calculate_refill_aware_usage` (line 108): for refill pairs, the
delta is added when positive. -/
def refillVolume (refill_threshold : ℚ) (readings : List NReading) : ℚ :=
  ((chainPairs readings).map fun pc =>
    if isRefillPair refill_threshold pc.1 pc.2 then
      if 0 < pc.2.litres_remaining - pc.1.litres_remaining then
        pc.2.litres_remaining - pc.1.litres_remaining
      else 0
    else 0).sum

/-- `readings[0]["litres_remaining"]` (line 115). -/
def headLitres (readings : List NReading) : ℚ :=
  ((readings.head?).map NReading.litres_remaining).getD 0

/-- `readings[-1]["litres_remaining"]` (line 116). -/
def lastLitres (readings : List NReading) : ℚ :=
  ((readings.getLast?).map NReading.litres_remaining).getD 0

/-- `average_ppl` of `notifier.calculate_refill_aware_usage` (lines
121–122): mean of the non-null `current_ppl` values, 0 when none. -/
def averagePpl (readings : List NReading) : ℚ :=
  let ppl_values := readings.filterMap NReading.current_ppl
  if ppl_values.length = 0 then 0 else ppl_values.sum / (ppl_values.length : ℚ)

/-- The record returned by `notifier.calculate_refill_aware_usage`;
`usage_litres` is `None` for windows of fewer than 2 readings. -/
structure UsageStats where
  usage_litres : Option ℚ
  had_refill : Bool
  refill_volume : ℚ
  average_ppl : ℚ
deriving DecidableEq

/-- `notifier.calculate_refill_aware_usage` (lines 83–129): fewer than 2
readings yield the `None`-usage record; otherwise usage is
`total_decrease` when any pair was a refill, else `first − last`, and in
either case floored at 0 (line 119). -/
def calculate_refill_aware_usage (readings : List NReading)
    (refill_threshold : ℚ) : UsageStats :=
  if readings.length < 2 then
    { usage_litres := none, had_refill := false, refill_volume := 0, average_ppl := 0 }
  else
    let had := hadRefill refill_threshold readings
    let usage0 := if had then totalDecrease refill_threshold readings
      else headLitres readings - lastLitres readings
    { usage_litres := some (max usage0 0)
      had_refill := had
      refill_volume := refillVolume refill_threshold readings
      average_ppl := averagePpl readings }

/-! ### Facts about the Period Usage Aggregator -/

lemma pairUsage_nonneg (thr : ℚ) (pc : NReading × NReading) : 0 ≤ pairUsage thr pc := by
  unfold pairUsage
  split_ifs with h1 h2
  · exact le_refl 0
  · exact le_of_lt h2
  · exact le_refl 0

lemma totalDecrease_nonneg (thr : ℚ) (readings : List NReading) :
    0 ≤ totalDecrease thr readings := by
  apply List.sum_nonneg
  intro x hx
  obtain ⟨pc, _, rfl⟩ := List.mem_map.mp hx
  exact pairUsage_nonneg thr pc

lemma chainPairs_append {α : Type} :
    ∀ (xs : List α) (b : α) (ys : List α),
      chainPairs (xs ++ b :: ys) = chainPairs (xs ++ [b]) ++ chainPairs (b :: ys)
  | [], b, ys => by simp [chainPairs]
  | [a], b, ys => by simp [chainPairs]
  | a1 :: a2 :: t, b, ys => by
    have ih := chainPairs_append (a2 :: t) b ys
    show (a1, a2) :: chainPairs ((a2 :: t) ++ b :: ys)
        = (a1, a2) :: (chainPairs ((a2 :: t) ++ [b]) ++ chainPairs (b :: ys))
    rw [ih]

lemma lastLitres_cons_cons (a b : NReading) (t : List NReading) :
    lastLitres (a :: b :: t) = lastLitres (b :: t) := by
  simp [lastLitres, List.getLast?_cons_cons]

/-- Telescoping: over any nonempty window the raw deltas of the
consecutive pairs sum to `first − last`. -/
lemma chainPairs_delta_sum :
    ∀ (a : NReading) (rest : List NReading),
      ((chainPairs (a :: rest)).map fun pc =>
        pc.1.litres_remaining - pc.2.litres_remaining).sum
        = a.litres_remaining - lastLitres (a :: rest)
  | a, [] => by simp [chainPairs, lastLitres]
  | a, b :: t => by
    have ih := chainPairs_delta_sum b t
    simp only [chainPairs, List.map_cons, List.sum_cons, ih, lastLitres_cons_cons]
    ring

/-- Cleanness of a window: every consecutive pair is either a refill pair
or a (weak) volume decrease — no sub-threshold volume increases. -/
def Clean (refill_threshold : ℚ) (readings : List NReading) : Prop :=
  ∀ pc ∈ chainPairs readings,
    isRefillPair refill_threshold pc.1 pc.2 = true ∨
      pc.2.litres_remaining ≤ pc.1.litres_remaining

instance (thr : ℚ) (readings : List NReading) : Decidable (Clean thr readings) := by
  unfold Clean
  infer_instance

lemma usage_eq_totalDecrease (thr : ℚ) (readings : List NReading)
    (hlen : 2 ≤ readings.length) (hclean : Clean thr readings) :
    (calculate_refill_aware_usage readings thr).usage_litres
      = some (totalDecrease thr readings) := by
  unfold calculate_refill_aware_usage
  rw [if_neg (by omega)]
  by_cases had : hadRefill thr readings
  · simp only [had, if_true]
    rw [max_eq_left (totalDecrease_nonneg thr readings)]
  · simp only [had, if_false, Bool.false_eq_true]
    obtain ⟨a, rest, rfl⟩ : ∃ a rest, readings = a :: rest := by
      cases readings with
      | nil => simp at hlen
      | cons a rest => exact ⟨a, rest, rfl⟩
    have hnorefill : ∀ pc ∈ chainPairs (a :: rest), isRefillPair thr pc.1 pc.2 = false := by
      intro pc hpc
      by_contra hcontra
      have : hadRefill thr (a :: rest) = true := by
        unfold hadRefill
        rw [List.any_eq_true]
        exact ⟨pc, hpc, by simpa using hcontra⟩
      exact had this
    have hmap : (chainPairs (a :: rest)).map (pairUsage thr)
        = (chainPairs (a :: rest)).map fun pc =>
            pc.1.litres_remaining - pc.2.litres_remaining := by
      apply List.map_congr_left
      intro pc hpc
      have hnr := hnorefill pc hpc
      have hdec : pc.2.litres_remaining ≤ pc.1.litres_remaining := by
        rcases hclean pc hpc with h | h
        · rw [hnr] at h
          simp at h
        · exact h
      unfold pairUsage
      rw [if_neg (by simp [hnr])]
      rcases lt_or_eq_of_le hdec with h | h
      · rw [if_pos (by linarith)]
      · rw [if_neg (by simp [h])]
        simp [h]
    have htel := chainPairs_delta_sum a rest
    have hfl : headLitres (a :: rest) - lastLitres (a :: rest) = totalDecrease thr (a :: rest) := by
      unfold totalDecrease
      rw [hmap, htel]
      simp [headLitres]
    rw [hfl, max_eq_left (totalDecrease_nonneg thr (a :: rest))]

lemma totalDecrease_split (thr : ℚ) (xs : List NReading) (b : NReading)
    (ys : List NReading) :
    totalDecrease thr (xs ++ b :: ys)
      = totalDecrease thr (xs ++ [b]) + totalDecrease thr (b :: ys) := by
  unfold totalDecrease
  rw [chainPairs_append, List.map_append, List.sum_append]

/-- C2: the Period Usage Aggregator reports `usage = total_decrease` when
any pair in the window is a refill, and `first − last` floored at 0
otherwise; on `[1000 L, 1100 L (refill), 900 L]` with threshold 100 the
reported usage is exactly 200 L. -/
theorem C2_refill_aware_usage (readings : List NReading) (thr : ℚ)
    (hlen : 2 ≤ readings.length) :
    ((hadRefill thr readings = true →
        (calculate_refill_aware_usage readings thr).usage_litres
          = some (totalDecrease thr readings)) ∧
      (hadRefill thr readings = false →
        (calculate_refill_aware_usage readings thr).usage_litres
          = some (max (headLitres readings - lastLitres readings) 0))) ∧
    (calculate_refill_aware_usage
        [⟨1000, "n", none⟩, ⟨1100, "y", none⟩, ⟨900, "n", none⟩] 100).usage_litres
      = some 200 := by
  constructor
  · constructor
    · intro had
      unfold calculate_refill_aware_usage
      rw [if_neg (by omega)]
      simp only [had, if_true]
      rw [max_eq_left (totalDecrease_nonneg thr readings)]
    · intro had
      unfold calculate_refill_aware_usage
      rw [if_neg (by omega)]
      simp only [had, if_false, Bool.false_eq_true]
  · have hny : ("n" : String) ≠ "y" := by decide
    norm_num [hny, calculate_refill_aware_usage, hadRefill, chainPairs, isRefillPair,
      totalDecrease, pairUsage, refillVolume, headLitres, lastLitres, averagePpl,
      max_def]

/-- C2 witness: the general characterisation applied to the spec's
three-reading refill scenario. -/
theorem C2_witness :
    (calculate_refill_aware_usage
        [⟨1000, "n", none⟩, ⟨1100, "y", none⟩, ⟨900, "n", none⟩] 100).usage_litres
      = some 200 :=
  (C2_refill_aware_usage
    [⟨1000, "n", none⟩, ⟨1100, "y", none⟩, ⟨900, "n", none⟩] 100 (by norm_num)).2

/-- C6 counterexample: usage is not additive under splitting at a
non-refill boundary. For the window `[1000 L, 1050 L, 1000 L]` (no refill
flags, threshold 100) the middle reading is not a refill point, yet the
whole-window usage is 0 while the two halves report 0 and 50. -/
theorem C6_cex_not_additive :
    isRefillPair 100 ⟨1000, "n", none⟩ ⟨1050, "n", none⟩ = false ∧
    (calculate_refill_aware_usage
        [⟨1000, "n", none⟩, ⟨1050, "n", none⟩, ⟨1000, "n", none⟩] 100).usage_litres
      = some 0 ∧
    (calculate_refill_aware_usage
        [⟨1000, "n", none⟩, ⟨1050, "n", none⟩] 100).usage_litres = some 0 ∧
    (calculate_refill_aware_usage
        [⟨1050, "n", none⟩, ⟨1000, "n", none⟩] 100).usage_litres = some 50 ∧
    (0 : ℚ) ≠ 0 + 50 := by
  have hny : ("n" : String) ≠ "y" := by decide
  refine ⟨by norm_num [isRefillPair, hny], ?_, ?_, ?_, by norm_num⟩ <;>
    norm_num [hny, calculate_refill_aware_usage, hadRefill, chainPairs, isRefillPair,
      totalDecrease, pairUsage, refillVolume, headLitres, lastLitres, averagePpl,
      max_def]

/-- C6 (amended): usage is additive under splitting the window at any
interior reading, provided every non-refill consecutive pair of the window
has non-increasing volume (no sub-threshold volume increases — the
situation the counterexample exhibits). -/
theorem C6_usage_additive_of_clean (thr : ℚ) (x b y : NReading)
    (xs ys : List NReading)
    (hclean : Clean thr ((x :: xs) ++ b :: (y :: ys))) :
    ∃ u1 u2,
      (calculate_refill_aware_usage ((x :: xs) ++ [b]) thr).usage_litres = some u1 ∧
      (calculate_refill_aware_usage (b :: (y :: ys)) thr).usage_litres = some u2 ∧
      (calculate_refill_aware_usage ((x :: xs) ++ b :: (y :: ys)) thr).usage_litres
        = some (u1 + u2) := by
  have hsplit := chainPairs_append (x :: xs) b (y :: ys)
  have hclean1 : Clean thr ((x :: xs) ++ [b]) := by
    intro pc hpc
    apply hclean
    rw [hsplit]
    exact List.mem_append_left _ hpc
  have hclean2 : Clean thr (b :: (y :: ys)) := by
    intro pc hpc
    apply hclean
    rw [hsplit]
    exact List.mem_append_right _ hpc
  refine ⟨totalDecrease thr ((x :: xs) ++ [b]), totalDecrease thr (b :: (y :: ys)),
    usage_eq_totalDecrease thr _
      (by simp only [List.length_append, List.length_cons, List.length_nil]; omega) hclean1,
    usage_eq_totalDecrease thr _
      (by simp only [List.length_cons]; omega) hclean2, ?_⟩
  rw [usage_eq_totalDecrease thr _
      (by simp only [List.length_append, List.length_cons, List.length_nil]; omega) hclean,
    totalDecrease_split thr (x :: xs) b (y :: ys)]

/-- C6 witness: additivity on the clean decreasing window
`[1000 L, 950 L, 900 L]` split at its middle reading. -/
theorem C6_witness :
    ∃ u1 u2,
      (calculate_refill_aware_usage
          [⟨1000, "n", none⟩, ⟨950, "n", none⟩] 100).usage_litres = some u1 ∧
      (calculate_refill_aware_usage
          [⟨950, "n", none⟩, ⟨900, "n", none⟩] 100).usage_litres = some u2 ∧
      (calculate_refill_aware_usage
          [⟨1000, "n", none⟩, ⟨950, "n", none⟩, ⟨900, "n", none⟩] 100).usage_litres
        = some (u1 + u2) :=
  C6_usage_additive_of_clean 100 ⟨1000, "n", none⟩ ⟨950, "n", none⟩
    ⟨900, "n", none⟩ [] [] (by norm_num [Clean, chainPairs, isRefillPair])

/-! ## `src/oil_analysis.py` — Consumption Estimator and Projection Engine -/

/-- Constants read from the configuration provider by `oil_analysis.py`:
`EMA_ALPHA`, `REFILL_THRESHOLD`, `EXPANSION_COEFFICIENT`, `REFERENCE_TEMP`. -/
structure AnalysisConfig where
  emaAlpha : ℚ
  refillThreshold : ℚ
  expansionCoeff : ℚ
  refTemp : ℚ

/-- A reading row as consumed by the estimators: timestamp in fractional
days (the source converts datetime differences via
`total_seconds() / 86400`), stored volume and temperature. -/
structure AReading where
  date : ℚ
  litres_remaining : ℚ
  temperature : ℚ

/-- `oil_analysis.temperature_compensated_volume` (lines 137–139). -/
def temperature_compensated_volume (cfg : AnalysisConfig) (volume temperature : ℚ) : ℚ :=
  volume / (1 + cfg.expansionCoeff * (temperature - cfg.refTemp))

/-- Loop of `oil_analysis.calculate_smoothed_consumption_rate` (lines
149–167) over consecutive reading pairs, carrying the `daily_rates` list:
positive compensated-volume decreases over positive elapsed time append a
rate; an increase beyond the refill threshold resets the list; everything
else is skipped. -/
def dailyRatesAux (cfg : AnalysisConfig) :
    List (AReading × AReading) → List ℚ → List ℚ
  | [], daily_rates => daily_rates
  | pc :: rest, daily_rates =>
    let days := pc.2.date - pc.1.date
    let volume_diff :=
      temperature_compensated_volume cfg pc.1.litres_remaining pc.1.temperature
        - temperature_compensated_volume cfg pc.2.litres_remaining pc.2.temperature
    if 0 < days then
      if 0 < volume_diff then dailyRatesAux cfg rest (daily_rates ++ [volume_diff / days])
      else if volume_diff < -cfg.refillThreshold then dailyRatesAux cfg rest []
      else dailyRatesAux cfg rest daily_rates
    else dailyRatesAux cfg rest daily_rates

/-- `oil_analysis.calculate_smoothed_consumption_rate` (lines 141–181):
returns the plain number `0` for fewer than 2 readings and when no valid
daily rate was collected; otherwise folds the rates into an exponential
moving average and floors it at `MINIMUM_CONSUMPTION_RATE = 0.01`. -/
def calculate_smoothed_consumption_rate (cfg : AnalysisConfig)
    (readings : List AReading) : ℚ :=
  if readings.length < 2 then 0
  else
    match dailyRatesAux cfg (chainPairs readings) [] with
    | [] => 0
    | r0 :: rest =>
      let ema := rest.foldl (fun e rate => cfg.emaAlpha * rate + (1 - cfg.emaAlpha) * e) r0
      max ema (1/100)

/-- A reading row as consumed by `get_smoothed_daily_usage`: timestamp in
fractional days and stored volume. -/
structure UReading where
  date : ℚ
  litres_remaining : ℚ

/-- Loop body of `oil_analysis.get_smoothed_daily_usage` (lines 292–310)
for one consecutive pair: `None` means the pair is skipped (refill jump,
negative usage, or non-positive elapsed time); when a hot-water baseline
is supplied and the day of the current reading (`Int.floor` of the
fractional-day timestamp models the calendar-day truncation) has zero HDD,
the per-day use is floored at the baseline. -/
def perDayUse (refill_threshold : ℚ) (daily_hw_l : Option ℚ) (hdd_data : ℤ → ℚ)
    (pc : UReading × UReading) : Option ℚ :=
  let used := pc.1.litres_remaining - pc.2.litres_remaining
  if used < -refill_threshold then none
  else if used < 0 then none
  else
    let days_delta := pc.2.date - pc.1.date
    if days_delta ≤ 0 then none
    else
      let per_day_use := used / days_delta
      match daily_hw_l with
      | some hw =>
        if hdd_data (Int.floor pc.2.date) = 0 then some (max per_day_use hw)
        else some per_day_use
      | none => some per_day_use

/-- `oil_analysis.get_smoothed_daily_usage` (lines 284–313) on an already
fetched reading window: `None` for fewer than 2 readings or when no pair
yields a usable per-day figure, otherwise the mean of the per-day
figures. -/
def get_smoothed_daily_usage (refill_threshold : ℚ) (daily_hw_l : Option ℚ)
    (hdd_data : ℤ → ℚ) (readings : List UReading) : Option ℚ :=
  if readings.length < 2 then none
  else
    let daily_usages :=
      (chainPairs readings).filterMap (perDayUse refill_threshold daily_hw_l hdd_data)
    if daily_usages.length = 0 then none
    else some (daily_usages.sum / (daily_usages.length : ℚ))

/-- `oil_analysis.analyze_data` lines 418–429: the fixed hot-water
baseline. 1 session × 4 weekdays plus 2 sessions × 3 weekend days, half an
hour per session at the boiler fuel rate, averaged over 7 days, with a 10 %
ad-hoc buffer. -/
def estimated_daily_hot_water_consumption (fuel_rate : ℚ) : ℚ :=
  let weekday_hot_water_sessions : ℚ := 1 * 4
  let weekend_hot_water_sessions : ℚ := 2 * 3
  let total_weekly_hot_water_sessions :=
    weekday_hot_water_sessions + weekend_hot_water_sessions
  let hot_water_heating_time : ℚ := 1/2
  let scheduled_daily_hot_water_consumption :=
    (total_weekly_hot_water_sessions * hot_water_heating_time * fuel_rate) / 7
  let buffer_factor : ℚ := 11/10
  scheduled_daily_hot_water_consumption * buffer_factor

/-- `oil_analysis.analyze_data` lines 457–471: the final value of
`adjusted_daily_consumption` (both branches overwrite the earlier
estimate). With at least 10 readings in the last week the weekly
consumption is `first − last`, zeroed when negative or implausibly larger
than a non-zero tank capacity (Python's truthiness test on
`TANK_CAPACITY`); otherwise the hot-water baseline scaled by the seasonal
factor is used. Either way the result is `max(weekly/7, daily_hw_l)`. -/
def adjusted_daily_consumption_final (weeklyLitres : List ℚ)
    (daily_hw_l seasonal_factor tank_capacity : ℚ) : ℚ :=
  if 10 ≤ weeklyLitres.length then
    let weekly_consumption := (weeklyLitres.head?.getD 0) - (weeklyLitres.getLast?.getD 0)
    let weekly_consumption :=
      if weekly_consumption < 0 ∨ (tank_capacity ≠ 0 ∧ tank_capacity < weekly_consumption)
      then 0 else weekly_consumption
    max (weekly_consumption / 7) daily_hw_l
  else
    let weekly_consumption := daily_hw_l * 7 * seasonal_factor
    max (weekly_consumption / 7) daily_hw_l

/-- `oil_analysis.analyze_data` line 514: the blended daily rate used by
the Projection Engine, `max(adjusted_daily_consumption, daily_hw_l)`. -/
def avg_daily_consumption_l (weeklyLitres : List ℚ)
    (daily_hw_l seasonal_factor tank_capacity : ℚ) : ℚ :=
  max (adjusted_daily_consumption_final weeklyLitres daily_hw_l seasonal_factor tank_capacity)
    daily_hw_l

/-- The reported days-remaining field: `analyze_data` line 532 turns the
internal `float('inf')` sentinel into the explicit string `"Unknown"`,
modelled as `unknown`; a finite figure is reported as `days d`. -/
inductive DaysReport where
  | days (d : ℚ)
  | unknown
deriving DecidableEq

/-- The projection part of an `AnalysisResult`: reported days remaining and
the estimated empty date as an offset in days from now (`None` is reported
as `"Unknown"`, line 533). -/
structure Projection where
  estimated_days_remaining : DaysReport
  empty_date_days_from_now : Option ℚ
deriving DecidableEq

/-- `oil_analysis.analyze_data` lines 516–523 with the reporting of lines
532–533: a positive blended rate yields `volume / rate` capped at 400 days
(today's HDD positive) or 700 days (otherwise), and an empty date that many
days from now; a non-positive rate yields the `unknown` sentinel and no
empty date. -/
def project_remaining (litres_remaining avg_daily_rate today_HDD : ℚ) : Projection :=
  if 0 < avg_daily_rate then
    let estimated_days_remaining := litres_remaining / avg_daily_rate
    let projected_cap : ℚ := if 0 < today_HDD then 400 else 700
    let d := min estimated_days_remaining projected_cap
    { estimated_days_remaining := DaysReport.days d, empty_date_days_from_now := some d }
  else
    { estimated_days_remaining := DaysReport.unknown, empty_date_days_from_now := none }

/-! ### Claim theorems about `oil_analysis.py` (C3, C4, C9) -/

/-- C3: with a positive blended daily rate the Projection Engine reports
`days_remaining = current_volume / rate` capped at 400 days when today's
HDD is positive and at 700 days when it is zero, and an empty date that
many days from now; with a non-positive rate it reports the explicit
`unknown` sentinel and no empty date. -/
theorem C3_projection (litres rate hdd : ℚ) :
    (0 < rate →
      ∃ d, project_remaining litres rate hdd =
          ⟨DaysReport.days d, some d⟩ ∧
        d = min (litres / rate) (if 0 < hdd then 400 else 700) ∧
        (0 < hdd → d ≤ 400) ∧ (hdd = 0 → d ≤ 700)) ∧
    (rate ≤ 0 →
      project_remaining litres rate hdd = ⟨DaysReport.unknown, none⟩) := by
  constructor
  · intro hrate
    refine ⟨min (litres / rate) (if 0 < hdd then 400 else 700), ?_, rfl, ?_, ?_⟩
    · unfold project_remaining
      rw [if_pos hrate]
    · intro hh
      rw [if_pos hh]
      exact min_le_right _ _
    · intro hh
      rw [if_neg (by simp [hh])]
      exact min_le_right _ _
  · intro hrate
    unfold project_remaining
    rw [if_neg (not_lt.mpr hrate)]

/-- C3 witness: at 1000 L, 2 L/day and today's HDD 5 the projection is a
finite figure of at most 400 days; at rate 0 it is the `unknown`
sentinel with no empty date. -/
theorem C3_witness :
    (∃ d, project_remaining 1000 2 5 = ⟨DaysReport.days d, some d⟩ ∧ d ≤ 400) ∧
      project_remaining 1000 0 5 = ⟨DaysReport.unknown, none⟩ := by
  constructor
  · obtain ⟨d, h1, _, h3, _⟩ := (C3_projection 1000 2 5).1 (by norm_num)
    exact ⟨d, h1, h3 (by norm_num)⟩
  · exact (C3_projection 1000 0 5).2 (le_refl 0)

/-- C4: the blended daily consumption rate handed to the Projection Engine
is always at least the estimated daily hot-water baseline, and is therefore
non-zero whenever the baseline is positive — in particular for reading
series with zero measured consumption. -/
theorem C4_blended_rate_floor (weeklyLitres : List ℚ)
    (fuel_rate seasonal_factor tank_capacity : ℚ) :
    estimated_daily_hot_water_consumption fuel_rate ≤
        avg_daily_consumption_l weeklyLitres
          (estimated_daily_hot_water_consumption fuel_rate) seasonal_factor tank_capacity ∧
      (0 < estimated_daily_hot_water_consumption fuel_rate →
        avg_daily_consumption_l weeklyLitres
          (estimated_daily_hot_water_consumption fuel_rate) seasonal_factor tank_capacity ≠ 0) := by
  constructor
  · exact le_max_right _ _
  · intro hpos
    exact ne_of_gt (lt_of_lt_of_le hpos (le_max_right _ _))

/-- C4 witness: with fuel rate 2 L/h the baseline is `11/7` L/day and the
blended rate over an empty reading window is non-zero. -/
theorem C4_witness :
    0 < estimated_daily_hot_water_consumption 2 ∧
      avg_daily_consumption_l [] (estimated_daily_hot_water_consumption 2) 0 1225 ≠ 0 :=
  ⟨by norm_num [estimated_daily_hot_water_consumption],
    (C4_blended_rate_floor [] 2 0 1225).2
      (by norm_num [estimated_daily_hot_water_consumption])⟩

/-- C9 counterexample: on a window with fewer than 2 readings the EMA
consumption rate does not return a distinguishable "unavailable" sentinel:
`calculate_smoothed_consumption_rate` returns the plain number 0 — exactly
the value the claim says is never produced — for a single-reading
window. -/
theorem C9_cex_ema_returns_zero :
    calculate_smoothed_consumption_rate ⟨1/2, 100, 7/10000, 15⟩ [⟨0, 500, 15⟩] = 0 := by
  rfl

/-- C9 (amended): on windows with fewer than 2 readings the refill-aware
period usage and the smoothed daily usage return the explicit `None`
sentinel, but the EMA consumption rate returns the plain number 0. -/
theorem C9_insufficient_data (cfg : AnalysisConfig) (thr : ℚ)
    (daily_hw_l : Option ℚ) (hdd_data : ℤ → ℚ)
    (rsA : List AReading) (rsU : List UReading) (rsN : List NReading)
    (hA : rsA.length < 2) (hU : rsU.length < 2) (hN : rsN.length < 2) :
    calculate_smoothed_consumption_rate cfg rsA = 0 ∧
      get_smoothed_daily_usage thr daily_hw_l hdd_data rsU = none ∧
      (calculate_refill_aware_usage rsN thr).usage_litres = none := by
  refine ⟨?_, ?_, ?_⟩
  · unfold calculate_smoothed_consumption_rate
    rw [if_pos hA]
  · unfold get_smoothed_daily_usage
    rw [if_pos hU]
  · unfold calculate_refill_aware_usage
    rw [if_pos hN]

/-- C9 witness: the amended statement on empty windows. -/
theorem C9_witness :
    calculate_smoothed_consumption_rate ⟨1/2, 100, 7/10000, 15⟩ [] = 0 ∧
      get_smoothed_daily_usage 100 (some 2) (fun _ => 0) [] = none ∧
      (calculate_refill_aware_usage [] 100).usage_litres = none :=
  C9_insufficient_data ⟨1/2, 100, 7/10000, 15⟩ 100 (some 2) (fun _ => 0) [] [] []
    (by norm_num) (by norm_num) (by norm_num)

end KeroTrack
